import Mathlib

set_option maxRecDepth 20000

/-
Verification of the GitHub trust-and-mutation layer of the gitauto
repository (services/github/github_manager.py and services/git/git_manager.py)
against its natural-language specification.

The Python source is shallowly embedded: each pure helper becomes a Lean
function over Nat / String / List Nat (bytes are Nat below 256), HTTP
traffic becomes explicit response values passed as arguments, and Python
exceptions become Except values.  Library primitives used by the source
(hashlib/hmac, the utf-8 codec, base64) are implemented concretely from
their standard definitions so every theorem is about executable code.
-/

namespace Gitauto

/-! ## Bytes, UTF-8 and base64

The source stores remote file content base64-encoded and decodes it with
the utf-8 codec (strictly at one call site, with the replace error handler
at another).  Bytes are modelled as natural numbers below 256. -/

/-- Fueled utf-8 decoding loop; the fuel is the byte count, and every
step consumes at least one byte, so the fuel never runs out when the
loop is entered through `utf8DecodeAux`. -/
def utf8DecodeGo : Nat → List Nat → List (Option Char)
  | _, [] => []
  | 0, _ :: _ => []
  | fuel + 1, b1 :: rest =>
    if b1 < 0x80 then some (Char.ofNat b1) :: utf8DecodeGo fuel rest
    else if 0xC2 ≤ b1 && b1 ≤ 0xDF then
      match rest with
      | b2 :: rest2 =>
        if 0x80 ≤ b2 && b2 ≤ 0xBF then
          some (Char.ofNat ((b1 - 0xC0) * 0x40 + (b2 - 0x80))) :: utf8DecodeGo fuel rest2
        else none :: utf8DecodeGo fuel (b2 :: rest2)
      | [] => [none]
    else if 0xE0 ≤ b1 && b1 ≤ 0xEF then
      match rest with
      | b2 :: b3 :: rest3 =>
        if (if b1 = 0xE0 then 0xA0 ≤ b2 && b2 ≤ 0xBF
            else if b1 = 0xED then 0x80 ≤ b2 && b2 ≤ 0x9F
            else 0x80 ≤ b2 && b2 ≤ 0xBF) && (0x80 ≤ b3 && b3 ≤ 0xBF) then
          some (Char.ofNat ((b1 - 0xE0) * 0x1000 + (b2 - 0x80) * 0x40 + (b3 - 0x80)))
            :: utf8DecodeGo fuel rest3
        else none :: utf8DecodeGo fuel (b2 :: b3 :: rest3)
      | [b2] => none :: utf8DecodeGo fuel [b2]
      | [] => [none]
    else if 0xF0 ≤ b1 && b1 ≤ 0xF4 then
      match rest with
      | b2 :: b3 :: b4 :: rest4 =>
        if (if b1 = 0xF0 then 0x90 ≤ b2 && b2 ≤ 0xBF
            else if b1 = 0xF4 then 0x80 ≤ b2 && b2 ≤ 0x8F
            else 0x80 ≤ b2 && b2 ≤ 0xBF) && (0x80 ≤ b3 && b3 ≤ 0xBF)
            && (0x80 ≤ b4 && b4 ≤ 0xBF) then
          some (Char.ofNat ((b1 - 0xF0) * 0x40000 + (b2 - 0x80) * 0x1000
              + (b3 - 0x80) * 0x40 + (b4 - 0x80))) :: utf8DecodeGo fuel rest4
        else none :: utf8DecodeGo fuel (b2 :: b3 :: b4 :: rest4)
      | [b2, b3] => none :: utf8DecodeGo fuel [b2, b3]
      | [b2] => none :: utf8DecodeGo fuel [b2]
      | [] => [none]
    else none :: utf8DecodeGo fuel rest

/-- One decoded utf-8 unit per list entry: `some c` for a well-formed
scalar value, `none` for a malformed byte (the decoder then resynchronises
at the next byte).  This models the CPython utf-8 codec at the granularity
the claims need: strict decoding fails exactly when a malformed unit
exists, and the replace handler substitutes U+FFFD for malformed input. -/
def utf8DecodeAux (bs : List Nat) : List (Option Char) := utf8DecodeGo bs.length bs

/-- The replacement character U+FFFD used by the replace error handler. -/
def replacementChar : Char := Char.ofNat 0xFFFD

/-- Decoding with `errors="replace"`: total, substitutes U+FFFD for
malformed input, never fails.  Models `bytes.decode(UTF8, errors="replace")`. -/
def utf8DecodeReplace (bs : List Nat) : String :=
  String.mk ((utf8DecodeAux bs).map (fun o => o.getD replacementChar))

/-- Strict decoding: `none` models the UnicodeDecodeError raised by
`bytes.decode(UTF8)` on malformed input. -/
def utf8DecodeStrict (bs : List Nat) : Option String :=
  if (utf8DecodeAux bs).all Option.isSome then
    some (String.mk ((utf8DecodeAux bs).filterMap id))
  else none

/-- Utf-8 encoding of one unicode scalar value. -/
def utf8EncodeChar (c : Nat) : List Nat :=
  if c < 0x80 then [c]
  else if c < 0x800 then [0xC0 + c / 0x40, 0x80 + c % 0x40]
  else if c < 0x10000 then
    [0xE0 + c / 0x1000, 0x80 + (c / 0x40) % 0x40, 0x80 + c % 0x40]
  else
    [0xF0 + c / 0x40000, 0x80 + (c / 0x1000) % 0x40,
     0x80 + (c / 0x40) % 0x40, 0x80 + c % 0x40]

/-- Utf-8 encoding of a string, modelling `str.encode(UTF8)`. -/
def utf8Encode (s : String) : List Nat :=
  (s.data.map (fun c => utf8EncodeChar c.toNat)).flatten

/-- The standard base64 alphabet. -/
def b64Alphabet : List Char :=
  "ABCDEFGHIJKLMNOPQRSTUVWXYZabcdefghijklmnopqrstuvwxyz0123456789+/".data

/-- Character at the given 6-bit index of the base64 alphabet. -/
def b64Char (n : Nat) : Char := b64Alphabet.getD n 'A'

/-- Base64 encoding of a byte list, modelling `base64.b64encode`. -/
def base64encodeList : List Nat → List Char
  | [] => []
  | [a] => [b64Char (a / 4), b64Char (a % 4 * 16), '=', '=']
  | [a, b] => [b64Char (a / 4), b64Char (a % 4 * 16 + b / 16), b64Char (b % 16 * 4), '=']
  | a :: b :: c :: rest =>
    b64Char (a / 4) :: b64Char (a % 4 * 16 + b / 16) :: b64Char (b % 16 * 4 + c / 64)
      :: b64Char (c % 64) :: base64encodeList rest

/-- Base64 encoding returning a string. -/
def base64encode (bs : List Nat) : String := String.mk (base64encodeList bs)

/-- Value of one base64 alphabet character; `none` for padding and
characters outside the alphabet (which `base64.b64decode` discards). -/
def b64Value (c : Char) : Option Nat :=
  b64Alphabet.findIdx? (fun x => x == c)

/-- Regroup 6-bit values into bytes. -/
def b64ValsToBytes : List Nat → List Nat
  | a :: b :: c :: d :: rest =>
    (a * 4 + b / 16) :: (b % 16 * 16 + c / 4) :: (c % 4 * 64 + d) :: b64ValsToBytes rest
  | [a, b] => [a * 4 + b / 16]
  | [a, b, c] => [a * 4 + b / 16, b % 16 * 16 + c / 4]
  | _ => []

/-- Base64 decoding of a string, modelling `base64.b64decode` on its
valid inputs. -/
def base64decode (s : String) : List Nat :=
  b64ValsToBytes (s.data.filterMap b64Value)

/-! ## SHA-256 and HMAC-SHA256

`verify_webhook_signature` compares the inbound header against
`"sha256=" + hmac.new(key, body, hashlib.sha256).hexdigest()`.  The hash
is implemented here from the FIPS 180-4 definition over 32-bit words
modelled as naturals reduced modulo `2 ^ 32`. -/

/-- `2 ^ 32`, the word modulus of SHA-256. -/
def m32 : Nat := 4294967296

/-- Right rotation of a 32-bit word. -/
def rotr32 (n x : Nat) : Nat := (x / 2 ^ n + x % 2 ^ n * 2 ^ (32 - n)) % m32

/-- The 64 SHA-256 round constants (FIPS 180-4 section 4.2.2, written in
decimal). -/
def sha256K : List Nat :=
  [1116352408, 1899447441, 3049323471, 3921009573, 961987163, 1508970993,
   2453635748, 2870763221, 3624381080, 310598401, 607225278, 1426881987,
   1925078388, 2162078206, 2614888103, 3248222580, 3835390401, 4022224774,
   264347078, 604807628, 770255983, 1249150122, 1555081692, 1996064986,
   2554220882, 2821834349, 2952996808, 3210313671, 3336571891, 3584528711,
   113926993, 338241895, 666307205, 773529912, 1294757372, 1396182291,
   1695183700, 1986661051, 2177026350, 2456956037, 2730485921, 2820302411,
   3259730800, 3345764771, 3516065817, 3600352804, 4094571909, 275423344,
   430227734, 506948616, 659060556, 883997877, 958139571, 1322822218,
   1537002063, 1747873779, 1955562222, 2024104815, 2227730452, 2361852424,
   2428436474, 2756734187, 3204031479, 3329325298]

/-- The eight-word SHA-256 working state. -/
structure Sha256St where
  a : Nat
  b : Nat
  c : Nat
  d : Nat
  e : Nat
  f : Nat
  g : Nat
  h : Nat

/-- The SHA-256 initial hash value (FIPS 180-4 section 5.3.3, in
decimal). -/
def sha256H0 : Sha256St :=
  ⟨1779033703, 3144134277, 1013904242, 2773480762,
   1359893119, 2600822924, 528734635, 1541459225⟩

/-- Small sigma 0 of the message schedule. -/
def sha256s0 (x : Nat) : Nat := (rotr32 7 x) ^^^ (rotr32 18 x) ^^^ (x / 2 ^ 3)

/-- Small sigma 1 of the message schedule. -/
def sha256s1 (x : Nat) : Nat := (rotr32 17 x) ^^^ (rotr32 19 x) ^^^ (x / 2 ^ 10)

/-- Extend 16 message words to the 64-entry schedule.  The fold keeps the
schedule reversed so the four look-backs are near the head. -/
def sha256Schedule (ws : List Nat) : List Nat :=
  ((List.range 48).foldl
    (fun acc _ =>
      ((acc.getD 15 0 + sha256s0 (acc.getD 14 0) + acc.getD 6 0
        + sha256s1 (acc.getD 1 0)) % m32) :: acc)
    ws.reverse).reverse

/-- One SHA-256 compression round. -/
def sha256Round (st : Sha256St) (kw : Nat × Nat) : Sha256St :=
  let s1 := (rotr32 6 st.e) ^^^ (rotr32 11 st.e) ^^^ (rotr32 25 st.e)
  let ch := (st.e &&& st.f) ^^^ ((st.e ^^^ (m32 - 1)) &&& st.g)
  let t1 := (st.h + s1 + ch + kw.1 + kw.2) % m32
  let s0 := (rotr32 2 st.a) ^^^ (rotr32 13 st.a) ^^^ (rotr32 22 st.a)
  let maj := (st.a &&& st.b) ^^^ (st.a &&& st.c) ^^^ (st.b &&& st.c)
  let t2 := (s0 + maj) % m32
  ⟨(t1 + t2) % m32, st.a, st.b, st.c, (st.d + t1) % m32, st.e, st.f, st.g⟩

/-- Big-endian 32-bit words from bytes. -/
def bytesToWords32 : List Nat → List Nat
  | a :: b :: c :: d :: rest => (((a * 256 + b) * 256 + c) * 256 + d) :: bytesToWords32 rest
  | _ => []

/-- Big-endian byte expansion of a natural, `k` bytes wide. -/
def natToBytesBE : Nat → Nat → List Nat
  | 0, _ => []
  | k + 1, n => natToBytesBE k (n / 256) ++ [n % 256]

/-- Compress one 64-byte chunk into the running hash state. -/
def sha256Chunk (hs : Sha256St) (chunk : List Nat) : Sha256St :=
  let w := sha256Schedule (bytesToWords32 chunk)
  let st := (sha256K.zip w).foldl sha256Round hs
  ⟨(hs.a + st.a) % m32, (hs.b + st.b) % m32, (hs.c + st.c) % m32, (hs.d + st.d) % m32,
   (hs.e + st.e) % m32, (hs.f + st.f) % m32, (hs.g + st.g) % m32, (hs.h + st.h) % m32⟩

/-- FIPS 180-4 padding: append 0x80, zero bytes and the 64-bit bit length. -/
def sha256Pad (msg : List Nat) : List Nat :=
  msg ++ 0x80 :: List.replicate ((120 - (msg.length + 1) % 64) % 64) 0
      ++ natToBytesBE 8 (msg.length * 8)

/-- Fueled 64-byte chunking loop; every step consumes at least one byte. -/
def chunks64Go : Nat → List Nat → List (List Nat)
  | _, [] => []
  | 0, _ :: _ => []
  | fuel + 1, x :: xs => ((x :: xs).take 64) :: chunks64Go fuel ((x :: xs).drop 64)

/-- Split a byte list into 64-byte chunks. -/
def chunks64 (l : List Nat) : List (List Nat) := chunks64Go l.length l

/-- SHA-256 digest of a byte list, as 32 bytes. -/
def sha256Bytes (msg : List Nat) : List Nat :=
  let fin := (chunks64 (sha256Pad msg)).foldl sha256Chunk sha256H0
  ([fin.a, fin.b, fin.c, fin.d, fin.e, fin.f, fin.g, fin.h].map (natToBytesBE 4)).flatten

/-- Lowercase hexadecimal digit. -/
def hexDigit (n : Nat) : Char := "0123456789abcdef".data.getD n '0'

/-- Lowercase hexadecimal rendering of a byte list, modelling `hexdigest`. -/
def bytesToHex (bs : List Nat) : String :=
  String.mk ((bs.map (fun b => [hexDigit (b / 16 % 16), hexDigit (b % 16)])).flatten)

/-- HMAC-SHA256 over byte lists, per RFC 2104. -/
def hmacSha256 (key msg : List Nat) : List Nat :=
  let k0 := if key.length > 64 then sha256Bytes key else key
  let kp := k0 ++ List.replicate (64 - k0.length) 0
  sha256Bytes ((kp.map (fun b => b ^^^ 0x5c))
    ++ sha256Bytes ((kp.map (fun b => b ^^^ 0x36)) ++ msg))

/-- Lowercase hex HMAC-SHA256, modelling
`hmac.new(key, msg, hashlib.sha256).hexdigest()`. -/
def hmacSha256Hex (key msg : List Nat) : String := bytesToHex (hmacSha256 key msg)

example : bytesToHex (sha256Bytes (utf8Encode "abc"))
    = "ba7816bf8f01cfea414140de5dae2223b00361a396177a9cb410ff61f20015ad" := by rfl

example : bytesToHex (sha256Bytes [])
    = "e3b0c44298fc1c149afbf4c8996fb92427ae41e4649b934ca495991b7852b855" := by rfl

example : hmacSha256Hex (utf8Encode "key")
      (utf8Encode "The quick brown fox jumps over the lazy dog")
    = "f7bc83f430538424b13298e6aa6fb143ef4d59a14946175997479dbc2d1a3cd8" := by rfl

/-! ## The exception wrapper

Python exceptions are modelled with `Except`: the body of a fallible
function is a value of `Except ε α`, `.error` standing for a raised
exception. -/

/-- Modelled from the spec: the decorator `utils.handle_exceptions`
(imported by both source files but itself not under src/), the single
explicit fallible-operation wrapper of the design notes.  It catches any
exception raised by the wrapped body; with `raiseOnError := true` the
exception is re-raised, otherwise the call evaluates to
`defaultReturnValue`, exactly as the decorator arguments at the src call
sites state. -/
def handle_exceptions {ε α : Type} (defaultReturnValue : α) (raiseOnError : Bool)
    (body : Except ε α) : Except ε α :=
  match body with
  | .ok a => .ok a
  | .error e => if raiseOnError then .error e else .ok defaultReturnValue

/-- Decidable equality for `Except`, used to evaluate concrete runs. -/
instance {ε α : Type} [DecidableEq ε] [DecidableEq α] : DecidableEq (Except ε α) :=
  fun x y =>
    match x, y with
    | .ok a, .ok b =>
      if h : a = b then .isTrue (by rw [h]) else .isFalse (fun hc => h (Except.ok.inj hc))
    | .error a, .error b =>
      if h : a = b then .isTrue (by rw [h]) else .isFalse (fun hc => h (Except.error.inj hc))
    | .ok _, .error _ => .isFalse (fun hc => Except.noConfusion hc)
    | .error _, .ok _ => .isFalse (fun hc => Except.noConfusion hc)

/-! ## Webhook signature verification (`verify_webhook_signature`) -/

/-- Result of `verify_webhook_signature`: the two ValueError variants of
the source, or normal return. -/
inductive VerifyOutcome where
  | ok : VerifyOutcome
  | missingSignature : VerifyOutcome
  | invalidSignature : VerifyOutcome
deriving DecidableEq

/-- Embeds `verify_webhook_signature`: the optional
`X-Hub-Signature-256` header value, the raw request body bytes and the
configured secret.  `hmac.compare_digest` is a timing-safe string
equality, modelled as equality. -/
def verify_webhook_signature (signature : Option String) (body : List Nat)
    (secret : String) : VerifyOutcome :=
  match signature with
  | none => .missingSignature
  | some sig =>
    if sig = "sha256=" ++ hmacSha256Hex (utf8Encode secret) body then .ok
    else .invalidSignature

/-! ## The content-mutation engine (`commit_changes_to_remote_branch`) -/

/-- The JSON payload of the PUT request issued by the write step:
`message`, base64 `content`, `branch`, and the optional `sha` field that
is included only when a version tag was observed on the read. -/
structure WriteReq where
  message : String
  content : String
  branch : String
  sha : Option String
deriving DecidableEq

/-- Response of the initial contents GET: its status code, and the
`content`/`sha` fields of its JSON body (meaningful when the status is
200). -/
structure FileReadResp where
  status : Nat
  contentB64 : String
  sha : String
deriving DecidableEq

/-- Requests raises for status codes in `[400, 600)` on
`raise_for_status`. -/
def isHttpErrorStatus (status : Nat) : Bool := 400 ≤ status && status < 600

/-- The transform-and-write tail of `commit_changes_to_remote_branch`:
apply the patch, return early (no PUT) when the patched text is the empty
string, otherwise issue the PUT whose payload includes the `sha` field
exactly when a version tag was recorded by the read step. -/
def commitWriteStep (applyPatch : String → String → String)
    (branch commitMessage diffText originalText sha : String)
    (putStatus : Nat) : Except Nat (Option WriteReq) :=
  let modifiedText := applyPatch originalText diffText
  if modifiedText = "" then .ok none
  else
    let data : WriteReq :=
      ⟨commitMessage, base64encode (utf8Encode modifiedText), branch,
       if sha = "" then none else some sha⟩
    if isHttpErrorStatus putStatus then .error putStatus else .ok (some data)

/-- Embeds the body of `commit_changes_to_remote_branch`.  `applyPatch`
stands for `utils.file_manager.apply_patch` (not under src/), modelled
from the spec as an arbitrary function producing the patched content from
the baseline and the diff text.  The result is `.error status` when a
request raises, `.ok none` when the function returns without issuing the
PUT (the `modified_text == ""` early return), and `.ok (some w)` when the
PUT with payload `w` succeeds. -/
def commit_changes_to_remote_branch_body (applyPatch : String → String → String)
    (branch commitMessage diffText : String) (read : FileReadResp)
    (putStatus : Nat) : Except Nat (Option WriteReq) :=
  if read.status = 200 then
    commitWriteStep applyPatch branch commitMessage diffText
      (utf8DecodeReplace (base64decode read.contentB64)) read.sha putStatus
  else if read.status ≠ 404 && isHttpErrorStatus read.status then
    .error read.status
  else
    commitWriteStep applyPatch branch commitMessage diffText "" "" putStatus

/-- The decorated `commit_changes_to_remote_branch`
(`raise_on_error=False`, default `None`). -/
def commit_changes_to_remote_branch (applyPatch : String → String → String)
    (branch commitMessage diffText : String) (read : FileReadResp)
    (putStatus : Nat) : Except Nat (Option WriteReq) :=
  handle_exceptions none false
    (commit_changes_to_remote_branch_body applyPatch branch commitMessage diffText
      read putStatus)

/-! ## The batch variant (`commit_multiple_changes_to_remote_branch`) -/

/-- The HTTP traffic one per-file commit sees: the contents GET response
and the PUT status code. -/
structure PerFileEnv where
  read : FileReadResp
  putStatus : Nat

/-- Embeds the loop of `commit_multiple_changes_to_remote_branch`.
`extractFileName` stands for `utils.file_manager.extract_file_name` (not
under src/), modelled from the spec as an arbitrary function from a diff
to its file path.  `env k` is the HTTP traffic seen while committing the
k-th diff; `k` is the position of the head of `diffs` in the original
list.  The result collects, in loop order, the `(file path, PUT payload)`
pairs of the commits that succeeded; it is `.error e` when an exception
escapes an iteration and aborts the loop. -/
def commit_multiple_changes_to_remote_branch
    (applyPatch : String → String → String) (extractFileName : String → String)
    (branch : String) (env : Nat → PerFileEnv) :
    Nat → List String → Except Nat (List (String × WriteReq))
  | _, [] => .ok []
  | k, diff :: rest =>
    let filePath := extractFileName diff
    match commit_changes_to_remote_branch applyPatch branch ("Update " ++ filePath)
        diff (env k).read (env k).putStatus with
    | .error e => .error e
    | .ok r =>
      match commit_multiple_changes_to_remote_branch applyPatch extractFileName
          branch env (k + 1) rest with
      | .error e => .error e
      | .ok tail =>
        .ok ((match r with | some w => [(filePath, w)] | none => []) ++ tail)

/-- Spec-side description used to state the amended batch claim: the
files whose own commit succeeds with a PUT are committed, in the given
order, independently of failures among the other files. -/
def batchCommittedFiles (applyPatch : String → String → String)
    (extractFileName : String → String) (branch : String)
    (env : Nat → PerFileEnv) : Nat → List String → List (String × WriteReq)
  | _, [] => []
  | k, diff :: rest =>
    let filePath := extractFileName diff
    (match commit_changes_to_remote_branch_body applyPatch branch
        ("Update " ++ filePath) diff (env k).read (env k).putStatus with
     | .ok (some w) => [(filePath, w)]
     | _ => []) ++
    batchCommittedFiles applyPatch extractFileName branch env (k + 1) rest

/-! ## Remote file reads (`get_remote_file_content`) -/

/-- Suffix test on strings, modelling `str.endswith`. -/
def strEndsWith (s pat : String) : Bool := pat.data.isSuffixOf s.data

/-- Embeds the body of `get_remote_file_content` after a successful GET:
image paths are routed to the vision collaborator (`describeImage`, an
external service modelled as a function argument), any other path is
base64-decoded and then text-decoded STRICTLY — `.error ()` models the
UnicodeDecodeError that `bytes.decode(encoding=UTF8)` raises on
undecodable bytes. -/
def get_remote_file_content_body (describeImage : String → String)
    (filePath encodedContent : String) : Except Unit String :=
  if [".png", ".jpeg", ".jpg", ".webp", ".gif"].any (fun e => strEndsWith filePath e) then
    .ok (describeImage encodedContent)
  else
    match utf8DecodeStrict (base64decode encodedContent) with
    | some decodedContent => .ok decodedContent
    | none => .error ()

/-- The decorated `get_remote_file_content` (`raise_on_error=False`,
default `""`). -/
def get_remote_file_content (describeImage : String → String)
    (filePath encodedContent : String) : Except Unit String :=
  handle_exceptions "" false
    (get_remote_file_content_body describeImage filePath encodedContent)

/-! ## The failure reporter (`update_comment_for_raised_errors`) -/

/-- Modelled from the spec: the generic "error occurred" body from
`utils.text_copy` (not under src/). -/
def UPDATE_COMMENT_FOR_RAISED_ERRORS_BODY : String := "error occurred"

/-- Modelled from the spec: the "no changes made" body from
`utils.text_copy` (not under src/). -/
def UPDATE_COMMENT_FOR_RAISED_ERRORS_NO_CHANGES_MADE : String := "no changes made"

/-- Is `pat` a contiguous substring of `l`?  Models
`str.find(pat) != -1`. -/
def listHasSub (pat : List Char) : List Char → Bool
  | [] => pat.isEmpty
  | c :: t => pat.isPrefixOf (c :: t) || listHasSub pat t

/-- An element of the `errors` attribute: either an object (carrying a
`message` attribute or not) or a nested list of such objects — the code
checks both shapes. -/
inductive ErrElem where
  | item : Option String → ErrElem
  | nested : List (Option String) → ErrElem

/-- A Python error value as `update_comment_for_raised_errors` probes it.
`isHTTPError` models the `isinstance(error, requests.exceptions.HTTPError)`
test, with the response status and text available for logging.  The next
three fields model the probes the classification performs on the error
OBJECT itself: `subscriptMessage` is the result of `error["message"]`
(`none` means the subscript raises — as it does for every Python 3
exception, which defines no `__getitem__`), `attrMessage` is `error.message`
(`none` means AttributeError) and `attrErrors` is `error.errors` (`none`
means AttributeError). -/
structure PyErrorObj where
  isHTTPError : Bool
  responseStatus : Nat
  responseText : String
  subscriptMessage : Option String
  attrMessage : Option String
  attrErrors : Option (List ErrElem)

/-- Evaluates the big `if` condition of the 422 branch of
`update_comment_for_raised_errors`, with Python short-circuiting: later
probes are evaluated (and can raise, `.error ()`) only when the earlier
conjuncts held.  `.ok true` selects the "no changes made" body. -/
def classifyRaisedError (error : PyErrorObj) : Except Unit Bool :=
  if error.isHTTPError then
    if error.responseStatus = 422 then
      match error.subscriptMessage with
      | none => .error ()
      | some m1 =>
        if m1 = "" then .ok false
        else
          match error.attrMessage with
          | none => .error ()
          | some m2 =>
            if m2 ≠ "Validation Failed" then .ok false
            else
              match error.attrErrors with
              | none => .error ()
              | some errs =>
                match errs with
                | [] => .error ()
                | e0 :: _ =>
                  match e0 with
                  | .nested its =>
                    match its with
                    | [] => .error ()
                    | some m :: _ =>
                      .ok (listHasSub "No commits between main and".data m.data)
                    | none :: _ => .ok false
                  | .item (some m) =>
                    .ok (listHasSub "No commits between main and".data m.data)
                  | .item none => .ok false
    else .ok false
  else .ok false

/-- Observable outcome of one `update_comment_for_raised_errors` call:
the body it chose, the body the `update_comment` PATCH was attempted
with (`none` would mean no update attempted), and whether the call ends
by raising. -/
structure ReporterOutcome where
  body : String
  updatedCommentBody : Option String
  raised : Bool

/-- Embeds `update_comment_for_raised_errors`: the body starts as the
generic one, the classification runs inside `try` (a classification
exception is caught and logged, leaving the generic body), the comment
update is attempted with the chosen body, and the function ends with
`raise RuntimeError("Error occurred")` on every path. -/
def update_comment_for_raised_errors (error : PyErrorObj) : ReporterOutcome :=
  let body :=
    match classifyRaisedError error with
    | .ok true => UPDATE_COMMENT_FOR_RAISED_ERRORS_NO_CHANGES_MADE
    | .ok false => UPDATE_COMMENT_FOR_RAISED_ERRORS_BODY
    | .error _ => UPDATE_COMMENT_FOR_RAISED_ERRORS_BODY
  ⟨body, some body, true⟩

/-! ## The ref resolver and bootstrapper (`get_latest_remote_commit_sha`) -/

/-- What one resolution attempt (the GET of the branch ref, with
`raise_for_status` and the JSON access) yields: a commit sha, an
HTTPError with its status and response-body message, or a non-HTTP
exception. -/
inductive RefResp where
  | ok : String → RefResp
  | httpError : Nat → String → RefResp
  | exception : String → RefResp
deriving DecidableEq

/-- Terminal outcome of `get_latest_remote_commit_sha`: a returned sha,
a re-raised HTTPError, or the RuntimeError raised through the failure
reporter path. -/
inductive ResolveOutcome where
  | sha : String → ResolveOutcome
  | raisedHTTPError : Nat → String → ResolveOutcome
  | raisedRuntimeError : ResolveOutcome
deriving DecidableEq

/-- Trace of one `get_latest_remote_commit_sha` run: how many times
`initialize_repo` bootstrapped the repository, whether
`update_comment_for_raised_errors` was invoked, and the outcome. -/
structure ResolveRun where
  bootstraps : Nat
  reporterCalled : Bool
  outcome : ResolveOutcome
deriving DecidableEq

/-- Embeds `get_latest_remote_commit_sha`.  `env k` is what the k-th
resolution attempt observes.  The source recurses without any bound after
bootstrapping, so the embedding carries fuel: `none` means the run is
still recursing after `fuel` attempts.  On a 409 "Git Repository is
empty." HTTPError the function bootstraps and re-invokes itself; on any
other HTTPError it re-raises (`raise` with no reporter call); on a
non-HTTP exception it calls the reporter, which raises RuntimeError. -/
def get_latest_remote_commit_sha (env : Nat → RefResp) :
    Nat → Nat → Option ResolveRun
  | 0, _ => none
  | fuel + 1, attempt =>
    match env attempt with
    | .ok s => some ⟨0, false, .sha s⟩
    | .httpError status message =>
      if status = 409 && message = "Git Repository is empty." then
        match get_latest_remote_commit_sha env fuel (attempt + 1) with
        | none => none
        | some r => some ⟨r.bootstraps + 1, r.reporterCalled, r.outcome⟩
      else some ⟨0, false, .raisedHTTPError status message⟩
    | .exception _ => some ⟨0, true, .raisedRuntimeError⟩

/-! ## Theorems -/

/-- C7: `verify_webhook_signature` succeeds exactly when the provided
`X-Hub-Signature-256` header equals `"sha256="` followed by the lowercase
hex HMAC-SHA256 of the raw body keyed by the secret; an absent header
raises the signature-missing error, and every other header value raises
the signature-invalid error. -/
theorem c7_signature_verification (body : List Nat) (secret s : String)
    (hneq : s ≠ "sha256=" ++ hmacSha256Hex (utf8Encode secret) body) :
    verify_webhook_signature
        (some ("sha256=" ++ hmacSha256Hex (utf8Encode secret) body)) body secret
      = .ok
    ∧ verify_webhook_signature none body secret = .missingSignature
    ∧ verify_webhook_signature (some s) body secret = .invalidSignature := by
  refine ⟨?_, rfl, ?_⟩
  · simp [verify_webhook_signature]
  · simp [verify_webhook_signature, hneq]

/-- Witness for C7 at the body `"body"`, the secret `"secret"` and a
wrong header. -/
theorem c7_witness :
    ("sha256=deadbeef" : String)
        ≠ "sha256=" ++ hmacSha256Hex (utf8Encode "secret") (utf8Encode "body")
    ∧ (verify_webhook_signature
          (some ("sha256=" ++ hmacSha256Hex (utf8Encode "secret") (utf8Encode "body")))
          (utf8Encode "body") "secret" = .ok
       ∧ verify_webhook_signature none (utf8Encode "body") "secret" = .missingSignature
       ∧ verify_webhook_signature (some "sha256=deadbeef") (utf8Encode "body") "secret"
          = .invalidSignature) :=
  ⟨by decide,
   c7_signature_verification (utf8Encode "body") "secret" "sha256=deadbeef" (by decide)⟩

/-- A patch function whose application yields the baseline unchanged:
per the spec this is the behaviour of an already-applied diff. -/
def noChangePatch : String → String → String := fun originalText _ => originalText

/-- A contents GET response for a non-empty baseline `"hello\n"`. -/
def c3Read : FileReadResp := ⟨200, base64encode (utf8Encode "hello\n"), "abc123"⟩

/-- C3 counterexample: with a non-empty baseline and a patch application
that yields no change, `commit_changes_to_remote_branch` does NOT return
the no-op outcome — it performs the PUT (with the unchanged content and
the observed sha), because its guard tests `modified_text == ""`, not
"no change". -/
theorem c3_counterexample :
    commit_changes_to_remote_branch_body noChangePatch "feature" "msg" "diff" c3Read 200
      = .ok (some ⟨"msg", base64encode (utf8Encode "hello\n"), "feature", some "abc123"⟩)
    ∧ commit_changes_to_remote_branch_body noChangePatch "feature" "msg" "diff" c3Read 200
      ≠ .ok none :=
  ⟨rfl, by decide⟩

/-- C3 (amended): with a successful 200 read, the engine returns the
no-op outcome (no PUT) exactly when the patched text is the EMPTY STRING;
a no-change patch result on a non-empty baseline still performs a write,
so the no-write-on-second-application behaviour holds only when the
patched result is empty. -/
theorem c3_amended_noop_iff_empty_result (applyPatch : String → String → String)
    (branch msg diff : String) (read : FileReadResp) (putStatus : Nat)
    (h200 : read.status = 200) :
    commit_changes_to_remote_branch_body applyPatch branch msg diff read putStatus
        = .ok none
    ↔ applyPatch (utf8DecodeReplace (base64decode read.contentB64)) diff = "" := by
  simp only [commit_changes_to_remote_branch_body, h200, if_pos, commitWriteStep]
  constructor
  · intro h
    by_contra hne
    simp only [if_neg hne] at h
    split at h <;> simp_all
  · intro h
    simp [h]

/-- A patch function whose application yields the empty string (for
example a diff deleting all content). -/
def emptyResultPatch : String → String → String := fun _ _ => ""

/-- Witness for the amended C3 at a concrete 200 read. -/
theorem c3_amended_witness :
    (⟨200, "", ""⟩ : FileReadResp).status = 200
    ∧ (commit_changes_to_remote_branch_body emptyResultPatch "b" "m" "d" ⟨200, "", ""⟩ 200
          = .ok none
       ↔ emptyResultPatch (utf8DecodeReplace (base64decode "")) "d" = "") :=
  ⟨rfl, c3_amended_noop_iff_empty_result emptyResultPatch "b" "m" "d" ⟨200, "", ""⟩ 200 rfl⟩

/-- C10: whenever the patch application yields exactly the empty string —
in particular when a non-empty baseline is entirely deleted by the diff —
`commit_changes_to_remote_branch` returns without issuing any PUT, so the
remote file is left unchanged and the deletion is dropped. -/
theorem c10_empty_patch_result_drops_write (applyPatch : String → String → String)
    (branch msg diff : String) (read : FileReadResp) (putStatus : Nat)
    (h200 : read.status = 200)
    (hempty : applyPatch (utf8DecodeReplace (base64decode read.contentB64)) diff = "") :
    commit_changes_to_remote_branch_body applyPatch branch msg diff read putStatus
      = .ok none := by
  simp [commit_changes_to_remote_branch_body, h200, commitWriteStep, hempty]

/-- A contents GET response for the non-empty baseline `"delete me\n"`. -/
def c10Read : FileReadResp := ⟨200, base64encode (utf8Encode "delete me\n"), "sha0"⟩

/-- Witness for C10: a non-empty baseline whose patch result is empty is
dropped without a write. -/
theorem c10_witness :
    c10Read.status = 200
    ∧ emptyResultPatch (utf8DecodeReplace (base64decode c10Read.contentB64)) "d" = ""
    ∧ commit_changes_to_remote_branch_body emptyResultPatch "b" "m" "d" c10Read 200
        = .ok none :=
  ⟨rfl, rfl, c10_empty_patch_result_drops_write emptyResultPatch "b" "m" "d" c10Read 200 rfl rfl⟩

/-- C8: a 404 read yields the empty baseline with no version tag and the
PUT payload omits the `sha` field entirely (a creation) with content the
patch of the empty baseline; a 200 read with a non-empty observed tag
yields a PUT payload carrying exactly that tag. -/
theorem c8_read_404_creates_without_sha (applyPatch : String → String → String)
    (branch msg diff contentB64 fileSha : String) (putStatus : Nat)
    (hput : putStatus < 400)
    (hmod404 : applyPatch "" diff ≠ "")
    (hsha : fileSha ≠ "")
    (hmod200 : applyPatch (utf8DecodeReplace (base64decode contentB64)) diff ≠ "") :
    commit_changes_to_remote_branch_body applyPatch branch msg diff
        ⟨404, contentB64, fileSha⟩ putStatus
      = .ok (some ⟨msg, base64encode (utf8Encode (applyPatch "" diff)), branch, none⟩)
    ∧ commit_changes_to_remote_branch_body applyPatch branch msg diff
        ⟨200, contentB64, fileSha⟩ putStatus
      = .ok (some ⟨msg,
          base64encode (utf8Encode
            (applyPatch (utf8DecodeReplace (base64decode contentB64)) diff)),
          branch, some fileSha⟩) := by
  have hp : isHttpErrorStatus putStatus = false := by
    simp [isHttpErrorStatus]
    omega
  constructor
  · simp [commit_changes_to_remote_branch_body, commitWriteStep, hmod404, hp]
  · simp [commit_changes_to_remote_branch_body, commitWriteStep, hmod200, hsha, hp]

/-- A patch function that adds three lines to the (empty) baseline. -/
def threeLinePatch : String → String → String := fun _ _ => "line1\nline2\nline3\n"

/-- Witness for C8: the end-to-end creation scenario — nonexistent file,
diff adding three lines, write carries exactly those lines and no version
tag. -/
theorem c8_witness :
    (200 : Nat) < 400
    ∧ threeLinePatch "" "d" ≠ ""
    ∧ ("abc" : String) ≠ ""
    ∧ commit_changes_to_remote_branch_body threeLinePatch "main" "Update README.md" "d"
        ⟨404, "", "abc"⟩ 200
      = .ok (some ⟨"Update README.md",
          base64encode (utf8Encode (threeLinePatch "" "d")), "main", none⟩) :=
  ⟨by decide, by decide, by decide,
   (c8_read_404_creates_without_sha threeLinePatch "main" "Update README.md" "d" "" "abc"
     200 (by decide) (by decide) (by decide) (by decide)).1⟩

/-- A patch function that replaces the baseline with the diff text,
convenient for concrete batch runs. -/
def echoPatch : String → String → String := fun _ diffText => diffText

/-- A file-name extractor for concrete batch runs: the file path is the
diff text itself. -/
def identityName : String → String := fun diffText => diffText

/-- Batch traffic where every file is new (404 reads) and the PUT of the
second file (position 1) fails with a 500 while the others succeed. -/
def c2Env : Nat → PerFileEnv :=
  fun k => if k = 1 then ⟨⟨404, "", ""⟩, 500⟩ else ⟨⟨404, "", ""⟩, 201⟩

/-- C2 counterexample: the second file of a three-diff batch fails
unrecoverably (its PUT raises a 500), yet the THIRD diff is still
applied — the per-file exception wrapper swallows the failure and the
loop continues, so the batch does not abort at the first failing diff. -/
theorem c2_counterexample :
    commit_multiple_changes_to_remote_branch echoPatch identityName "new-branch" c2Env 0
        ["f1", "f2", "f3"]
      = .ok [("f1", ⟨"Update f1", base64encode (utf8Encode "f1"), "new-branch", none⟩),
             ("f3", ⟨"Update f3", base64encode (utf8Encode "f3"), "new-branch", none⟩)]
    ∧ commit_changes_to_remote_branch_body echoPatch "new-branch" "Update f2" "f2"
        (c2Env 1).read (c2Env 1).putStatus = .error 500 :=
  ⟨rfl, rfl⟩

/-- C2 (amended): the batch processes the diffs strictly in the given
order, one commit per file; a per-file failure is caught by the per-file
exception wrapper (`raise_on_error=False`), so the loop never aborts and
continues with the remaining diffs, and the files whose own commit
succeeded — before or after a failure — remain committed, in order. -/
theorem c2_amended_batch_continues_past_failure
    (applyPatch : String → String → String) (extractFileName : String → String)
    (branch : String) (env : Nat → PerFileEnv) :
    ∀ (k : Nat) (diffs : List String),
      commit_multiple_changes_to_remote_branch applyPatch extractFileName branch env
          k diffs
        = .ok (batchCommittedFiles applyPatch extractFileName branch env k diffs) := by
  intro k diffs
  induction diffs generalizing k with
  | nil => rfl
  | cons d rest ih =>
    simp only [commit_multiple_changes_to_remote_branch, batchCommittedFiles,
      commit_changes_to_remote_branch, handle_exceptions]
    cases h : commit_changes_to_remote_branch_body applyPatch branch
        ("Update " ++ extractFileName d) d (env k).read (env k).putStatus with
    | ok r => cases r <;> simp [ih (k + 1)]
    | error e => simp [ih (k + 1)]

/-- The concrete error value this system actually passes to the failure
reporter on a 422 validation failure: a `requests.exceptions.HTTPError`.
Its response carries the validation body, but the error OBJECT itself
supports none of the probes the classifier performs: Python 3 exceptions
define no `__getitem__` (so `error["message"]` raises TypeError) and
`requests` HTTPError instances have neither a `message` nor an `errors`
attribute. -/
def c4Error : PyErrorObj :=
  ⟨true, 422,
   "\x7b\"message\": \"Validation Failed\", \"errors\": [\x7b\"message\": \"No commits between main and feature-1\"\x7d]\x7d",
   none, none, none⟩

/-- C4: the claim says this 422 validation error selects the "no changes
made" body; the code instead evaluates `error["message"]` on the
HTTPError object, which raises, the classification exception is caught,
and the GENERIC body is used — the "no changes made" branch is
unreachable for `requests` HTTPError values. -/
theorem c4_no_changes_body_unreachable :
    classifyRaisedError c4Error = .error ()
    ∧ (update_comment_for_raised_errors c4Error).body
        = UPDATE_COMMENT_FOR_RAISED_ERRORS_BODY
    ∧ UPDATE_COMMENT_FOR_RAISED_ERRORS_BODY
        ≠ UPDATE_COMMENT_FOR_RAISED_ERRORS_NO_CHANGES_MADE :=
  ⟨rfl, rfl, by decide⟩

/-- C5: for every error value the reporter ends by raising, after
attempting the comment update with the body it chose; and when the
classification itself raises, the failure is caught and the body falls
back to the generic variant (the update still being attempted). -/
theorem c5_reporter_always_raises_and_updates (error : PyErrorObj) :
    (update_comment_for_raised_errors error).raised = true
    ∧ (update_comment_for_raised_errors error).updatedCommentBody
        = some (update_comment_for_raised_errors error).body
    ∧ (classifyRaisedError error = .error () →
        (update_comment_for_raised_errors error).body
          = UPDATE_COMMENT_FOR_RAISED_ERRORS_BODY) := by
  refine ⟨rfl, rfl, fun hfail => ?_⟩
  simp [update_comment_for_raised_errors, hfail]

/-- A malformed error value whose classification raises midway: the
subscript probe succeeds but the `message` attribute is missing. -/
def c5MalformedError : PyErrorObj := ⟨true, 422, "", some "Validation Failed", none, none⟩

/-- Witness for C5 at a concrete malformed error. -/
theorem c5_witness :
    classifyRaisedError c5MalformedError = .error ()
    ∧ (update_comment_for_raised_errors c5MalformedError).raised = true
    ∧ (update_comment_for_raised_errors c5MalformedError).body
        = UPDATE_COMMENT_FOR_RAISED_ERRORS_BODY :=
  ⟨rfl, (c5_reporter_always_raises_and_updates c5MalformedError).1,
   (c5_reporter_always_raises_and_updates c5MalformedError).2.2 rfl⟩

/-- When every decoded unit is well-formed, the replace decoder agrees
with keeping the decoded units. -/
theorem map_getD_of_all_isSome {l : List (Option Char)}
    (h : l.all Option.isSome = true) :
    l.map (fun o => o.getD replacementChar) = l.filterMap id := by
  induction l with
  | nil => rfl
  | cons o t ih =>
    cases o with
    | some c =>
      simp only [List.all_cons, Option.isSome_some, Bool.true_and] at h
      simp [ih h]
    | none => simp [List.all_cons] at h

/-- C9 counterexample: the byte 0x80 (base64 `"gA=="`) is valid base64
but not valid utf-8; the mutation engine's replace decoder maps it to
U+FFFD, but `get_remote_file_content` decodes strictly and its decode
raises — so the replacement policy does NOT hold at every decode site. -/
theorem c9_counterexample :
    base64decode "gA==" = [128]
    ∧ get_remote_file_content_body (fun _ => "") "README.md" "gA==" = .error ()
    ∧ utf8DecodeReplace [128] = String.mk [replacementChar] :=
  ⟨rfl, rfl, rfl⟩

/-- C9 (amended): the mutation engine's read decode uses the replacement
policy and never raises, agreeing with strict decoding whenever the bytes
are well-formed; `get_remote_file_content` however decodes strictly, and
on undecodable bytes its decode raises (the surrounding wrapper then
swallows the error into the empty-string default). -/
theorem c9_amended_decode_sites (describeImage : String → String)
    (filePath encodedContent : String)
    (himg : ([".png", ".jpeg", ".jpg", ".webp", ".gif"].any
        (fun e => strEndsWith filePath e)) = false) :
    (∀ s, utf8DecodeStrict (base64decode encodedContent) = some s →
        get_remote_file_content_body describeImage filePath encodedContent = .ok s
        ∧ utf8DecodeReplace (base64decode encodedContent) = s)
    ∧ (utf8DecodeStrict (base64decode encodedContent) = none →
        get_remote_file_content_body describeImage filePath encodedContent
          = .error ()) := by
  constructor
  · intro s hs
    have hall : (utf8DecodeAux (base64decode encodedContent)).all Option.isSome = true := by
      by_contra hna
      simp [utf8DecodeStrict, hna] at hs
    have hsv : s = String.mk ((utf8DecodeAux (base64decode encodedContent)).filterMap id) := by
      simp [utf8DecodeStrict, hall] at hs
      exact hs.symm
    refine ⟨?_, ?_⟩
    · simp [get_remote_file_content_body, himg, hs]
    · rw [utf8DecodeReplace, map_getD_of_all_isSome hall, hsv]
  · intro hs
    simp [get_remote_file_content_body, himg, hs]

/-- Witness for the amended C9 at the undecodable byte 0x81. -/
theorem c9_witness :
    ([".png", ".jpeg", ".jpg", ".webp", ".gif"].any
        (fun e => strEndsWith "notes.txt" e)) = false
    ∧ utf8DecodeStrict (base64decode "gQ==") = none
    ∧ get_remote_file_content_body (fun _ => "") "notes.txt" "gQ==" = .error () :=
  ⟨by decide, rfl,
   (c9_amended_decode_sites (fun _ => "") "notes.txt" "gQ==" (by decide)).2 rfl⟩

/-- An environment whose every resolution attempt reports the
empty-repository condition: the bootstrap push silently fails to make the
repository non-empty. -/
def envAlwaysEmpty : Nat → RefResp := fun _ => .httpError 409 "Git Repository is empty."

/-- An environment whose first two resolution attempts report the
empty-repository condition before a sha appears. -/
def envEmptyTwice : Nat → RefResp :=
  fun k => if k ≤ 1 then .httpError 409 "Git Repository is empty."
           else .ok "sha-after-two-bootstraps"

/-- C1: the claim (and the spec) require at most ONE bootstrap, raising
if the re-resolution still reports empty; the code instead recurses
unboundedly — under a persistently-empty environment no amount of fuel
makes it raise, and when the second attempt still reports empty it
performs a SECOND bootstrap instead of raising. -/
theorem c1_unbounded_recursion_on_persistent_empty :
    (∀ fuel : Nat, get_latest_remote_commit_sha envAlwaysEmpty fuel 0 = none)
    ∧ get_latest_remote_commit_sha envEmptyTwice 3 0
        = some ⟨2, false, .sha "sha-after-two-bootstraps"⟩ := by
  constructor
  · have hall : ∀ fuel attempt,
        get_latest_remote_commit_sha envAlwaysEmpty fuel attempt = none := by
      intro fuel
      induction fuel with
      | zero => intro _; rfl
      | succ f ih =>
        intro attempt
        simp [get_latest_remote_commit_sha, envAlwaysEmpty, ih]
    exact fun fuel => hall fuel 0
  · rfl

/-- An environment whose resolution attempt fails with a 404 HTTPError. -/
def env404 : Nat → RefResp := fun _ => .httpError 404 "Not Found"

/-- C6 counterexample: a 404 HTTPError on the ref lookup propagates with
the bare `raise` of the HTTPError clause — the failure reporter is NOT
invoked on this path, refuting "propagates only after being routed to the
Failure Reporter". -/
theorem c6_counterexample :
    get_latest_remote_commit_sha env404 1 0
      = some ⟨0, false, .raisedHTTPError 404 "Not Found"⟩
    ∧ (get_latest_remote_commit_sha env404 1 0).map ResolveRun.reporterCalled
      ≠ some true :=
  ⟨rfl, by decide⟩

/-- C6 (amended): an HTTPError other than the empty-repository condition
is re-raised directly WITHOUT invoking the failure reporter, while a
non-HTTP exception is routed to the reporter and ends in its
RuntimeError; in both cases the function raises rather than returning a
value. -/
theorem c6_amended_http_errors_bypass_reporter (env : Nat → RefResp)
    (fuel status : Nat) (message ex : String)
    (hne : ¬(status = 409 ∧ message = "Git Repository is empty.")) :
    (env 0 = .httpError status message →
      get_latest_remote_commit_sha env (fuel + 1) 0
        = some ⟨0, false, .raisedHTTPError status message⟩)
    ∧ (env 0 = .exception ex →
      get_latest_remote_commit_sha env (fuel + 1) 0
        = some ⟨0, true, .raisedRuntimeError⟩) := by
  have hb : (decide (status = 409) && decide (message = "Git Repository is empty."))
      = false := by
    by_cases h1 : status = 409
    · by_cases h2 : message = "Git Repository is empty."
      · exact absurd ⟨h1, h2⟩ hne
      · simp [h2]
    · simp [h1]
  constructor
  · intro h
    simp [get_latest_remote_commit_sha, h, hb]
  · intro h
    simp [get_latest_remote_commit_sha, h]

/-- An environment whose resolution attempt raises a non-HTTP
exception. -/
def envException : Nat → RefResp := fun _ => .exception "connection reset"

/-- Witness for the amended C6 at a 410 HTTPError and at a non-HTTP
exception. -/
theorem c6_witness :
    ¬((410 : Nat) = 409 ∧ ("Gone" : String) = "Git Repository is empty.")
    ∧ get_latest_remote_commit_sha (fun _ => .httpError 410 "Gone") 1 0
        = some ⟨0, false, .raisedHTTPError 410 "Gone"⟩
    ∧ get_latest_remote_commit_sha envException 1 0
        = some ⟨0, true, .raisedRuntimeError⟩ :=
  ⟨by decide,
   (c6_amended_http_errors_bypass_reporter (fun _ => .httpError 410 "Gone") 0 410 "Gone"
     "x" (by decide)).1 rfl,
   (c6_amended_http_errors_bypass_reporter envException 0 410 "Gone" "connection reset"
     (by decide)).2 rfl⟩

end Gitauto
